import Mathlib

/-!
Verification development for the file-system command/status channel of
`traffic_api.py` (Unity Traffic System Control API).

The control side publishes commands by writing one JSON file per command into
a mailbox directory (`COMMANDS_DIR`), and reads system state from a status
snapshot file written by the external simulation host.  This file gives a
shallow embedding of that channel: the command encoder (the dict literal built
in `send_unity_command` together with `json.dump`), the mailbox writer
(`send_unity_command`), the snapshot reader (`get_traffic_system_status`,
`get_all_light_ids`), the fan-out handlers (`set_all_lights_mode`,
`chaos_attack`), the single-light handlers (`set_traffic_light`,
`set_traffic_light_mode`) and the status endpoint (`get_status`).

Effects are made explicit: the filesystem is an association list from paths to
string contents, a publish is a list of filesystem operations applied to that
state, and the outcome of the underlying I/O (success, or an exception caught
by the handler) is an explicit `WriteOutcome` parameter, one per attempted
write, standing for whatever the operating system did on that call.
-/

/-- JSON scalar values appearing in command records: the source serializes
string payload fields (status, mode) and the integer millisecond timestamp. -/
inductive JVal where
  | str (s : String)
  | num (n : Int)
  deriving DecidableEq, Repr

/-- A command record is the Python dict built in `send_unity_command`:
an ordered association list of field names to JSON values. -/
abbrev CommandRecord := List (String × JVal)

/-- Mailbox directory, configuration constant COMMANDS_DIR of the source. -/
def COMMANDS_DIR : String := "/tmp/unity-traffic/commands/"

/-- Path of the command file for a target: `os.path.join` of COMMANDS_DIR
(which ends in a slash) with the interpolated file name, the target id
followed by the literal suffix `_command.json`.  The path depends only on
the target id: neither the timestamp nor the payload enters the name. -/
def commandFilePath (light_id : String) : String :=
  COMMANDS_DIR ++ light_id ++ ("_command.json")

/-- Python dict insertion as performed by a dict literal in which later keys
override earlier ones: an existing key keeps its position and receives the new
value, a fresh key is appended at the end. -/
def dictInsert (d : CommandRecord) (k : String) (v : JVal) : CommandRecord :=
  if (d.map Prod.fst).contains k then
    d.map (fun f => if f.1 == k then (k, v) else f)
  else d ++ [(k, v)]

/-- The command dict built in `send_unity_command`: the literal keys `action`
and `timestamp` (the latter holding the millisecond clock value), then the
keyword arguments merged on top with Python double-star semantics. -/
def buildCommand (action : String) (ts : Int) (kwargs : List (String × String)) :
    CommandRecord :=
  kwargs.foldl (fun d p => dictInsert d p.1 (JVal.str p.2))
    [(("action"), JVal.str action), (("timestamp"), JVal.num ts)]

/-- Serialization of a single JSON value, as `json.dump` renders it. -/
def jsonEncodeVal : JVal → String
  | JVal.str s => ("\"") ++ s ++ ("\"")
  | JVal.num n => toString n

/-- Serialization of one field, `json.dump` default separators: quoted key,
colon, space, value. -/
def jsonEncodeField (f : String × JVal) : String :=
  ("\"") ++ f.1 ++ ("\": ") ++ jsonEncodeVal f.2

/-- Character data of the serialized record: an opening brace (character code
123), the comma separated fields, and a closing brace (character code 125),
exactly the shape `json.dump` produces for a flat object. -/
def jsonData (r : CommandRecord) : List Char :=
  Char.ofNat 123 ::
    ((String.intercalate (", ") (r.map jsonEncodeField)).data ++ [Char.ofNat 125])

/-- The byte sequence `json.dump` writes for a command record. -/
def jsonEncode (r : CommandRecord) : String :=
  String.mk (jsonData r)

/-- The filesystem visible to mailbox readers: an association list from file
paths to current string contents. -/
abbrev Fs := List (String × String)

/-- Content of a file, none when no file exists at the path. -/
def lookupFs : Fs → String → Option String
  | [], _ => none
  | f :: rest, p => if f.1 == p then some f.2 else lookupFs rest p

/-- Create or replace the file at a path with the given content. -/
def insertFile : Fs → String → String → Fs
  | [], p, c => [(p, c)]
  | f :: rest, p, c => if f.1 == p then (p, c) :: rest else f :: insertFile rest p c

/-- Delete the file at a path, if present. -/
def removeFile : Fs → String → Fs
  | [], _ => []
  | f :: rest, p => if f.1 == p then removeFile rest p else f :: removeFile rest p

/-- Filesystem operations a writer can perform, at the granularity a
concurrent reader of the directory can observe: truncating open (Python
`open(path, 'w')`), appending a chunk of data to an open file (`json.dump`
writing), and an atomic rename. -/
inductive FsOp where
  | openTrunc (path : String)
  | writeChunk (path : String) (data : String)
  | rename (src : String) (dst : String)
  deriving DecidableEq, Repr

/-- Whether an operation is a rename. -/
def FsOp.isRename : FsOp → Bool
  | FsOp.rename _ _ => true
  | _ => false

/-- The path at which an operation makes a file (newly) visible. -/
def FsOp.mainPath : FsOp → String
  | FsOp.openTrunc p => p
  | FsOp.writeChunk p _ => p
  | FsOp.rename _ dst => dst

/-- Effect of one operation on the visible filesystem. -/
def applyOp (fs : Fs) : FsOp → Fs
  | FsOp.openTrunc p => insertFile fs p ("")
  | FsOp.writeChunk p s =>
    match lookupFs fs p with
    | some c => insertFile fs p (c ++ s)
    | none => fs
  | FsOp.rename src dst =>
    match lookupFs fs src with
    | some c => insertFile (removeFile fs src) dst c
    | none => fs

/-- Effect of a sequence of operations, applied left to right. -/
def applyOps (fs : Fs) (ops : List FsOp) : Fs :=
  ops.foldl applyOp fs

/-- Outcome of the I/O a single `send_unity_command` call attempts: either
the open and the dump complete, or some step raises an `OSError` (directory
missing, permission denied, disk full) that the except clause catches.
A failure records how many of the call's filesystem operations completed
before the exception struck: 0 when the open itself fails (missing directory,
permission denied), 1 when the truncating open succeeded and `json.dump`
then fails (disk full) — in that case the mailbox has already been mutated. -/
inductive WriteOutcome where
  | ok
  | ioError (opsDone : Nat) (msg : String)
  deriving DecidableEq, Repr

/-- Whether the attempted I/O completed. -/
def WriteOutcome.isOk : WriteOutcome → Bool
  | WriteOutcome.ok => true
  | WriteOutcome.ioError _ _ => false

/-- The filesystem operations `send_unity_command` performs when its I/O
succeeds: a truncating open of the command file at its final mailbox path,
then `json.dump` writing the serialized record into that same path.  There is
no temporary path and no rename step. -/
def sendCommandOps (light_id action : String) (kwargs : List (String × String))
    (ts : Int) : List FsOp :=
  [FsOp.openTrunc (commandFilePath light_id),
   FsOp.writeChunk (commandFilePath light_id)
     (jsonEncode (buildCommand action ts kwargs))]

/-- Embedding of `send_unity_command(light_id, action, **kwargs)`: builds the
command dict with the clock value `ts`, writes it to the command file path of
`light_id` inside COMMANDS_DIR and returns True; if the I/O raises, the
except clause logs and returns False.  `w` is the outcome of the attempted
I/O on this call; on failure, the operations that completed before the
exception (a prefix of the call's operation sequence) have still taken
effect on the filesystem — in particular a truncating open that succeeded
before `json.dump` failed has already truncated the command file. -/
def send_unity_command (fs : Fs) (w : WriteOutcome) (light_id action : String)
    (kwargs : List (String × String)) (ts : Int) : Fs × Bool :=
  match w with
  | WriteOutcome.ok => (applyOps fs (sendCommandOps light_id action kwargs ts), true)
  | WriteOutcome.ioError opsDone _ =>
    (applyOps fs ((sendCommandOps light_id action kwargs ts).take opsDone), false)

/-- One light entity of the status snapshot.  Only the `id` field is read by
the control-side operations modelled here (`get_all_light_ids` extracts it);
the remaining entity fields (status, controlMode, position, intersection,
greenDuration) are only echoed back to HTTP clients and are not modelled. -/
structure Light where
  id : String
  deriving DecidableEq, Repr

/-- Parsed status snapshot file.  `lights` is none when the parsed JSON
object has no lights key (the source guards with a membership test before
indexing). -/
structure Snapshot where
  lights : Option (List Light)
  totalLights : Nat
  systemActive : Bool
  deriving DecidableEq, Repr

/-- Embedding of `get_traffic_system_status()`: the status file is either
absent (`os.path.exists` is false, return None) or present with some content;
`json.load` either parses it (modelled by the `parse` parameter) or raises,
in which case the except clause logs and returns None. -/
def get_traffic_system_status (parse : String → Option Snapshot) :
    Option String → Option Snapshot
  | none => none
  | some content =>
    match parse content with
    | some snap => some snap
    | none => none

/-- Embedding of `get_all_light_ids()`: the id of every entry of the
snapshot's lights list, or the empty list when the snapshot is absent or has
no lights key. -/
def get_all_light_ids (system_data : Option Snapshot) : List String :=
  match system_data with
  | some s =>
    match s.lights with
    | some lights => lights.map Light.id
    | none => []
  | none => []

/-- Python `dict.get` over a parsed JSON request body with string values:
the first binding of the key, if any. -/
def getParam : List (String × String) → String → Option String
  | [], _ => none
  | p :: rest, k => if p.1 == k then some p.2 else getParam rest k

/-- Python `str.lower` on the ASCII request values used by the handlers:
lowercase each character. -/
def lowerStr (s : String) : String :=
  String.mk (s.data.map Char.toLower)

/-- Whitespace as `str.strip` removes it at either end. -/
def isSpaceChar (c : Char) : Bool :=
  c == (' ') || c == ('\t') || c == ('\n') || c == ('\r')

/-- Python `str.strip`: drop whitespace from both ends. -/
def stripStr (s : String) : String :=
  String.mk (((s.data.dropWhile isSpaceChar).reverse.dropWhile isSpaceChar).reverse)

/-- The admissible status values of the single-light set handler. -/
def statusAllowed : List String := [("red"), ("yellow"), ("green")]

/-- The admissible mode values of the mode handlers. -/
def modeAllowed : List String := [("automatic"), ("manual"), ("api_controlled")]

/-- One call of `send_unity_command` as the handlers issue it: the addressed
target, the action, and the keyword payload. -/
structure PubCall where
  target : String
  action : String
  kwargs : List (String × String)
  deriving DecidableEq, Repr

/-- Result of the bulk mode endpoint, by response class: a 400 invalid-mode
error, a 404 no-lights error, or the 200 response carrying the
successful_lights and failed_lights accounting. -/
inductive BulkResult where
  | invalidMode
  | noLights
  | ok (successful_lights : List String) (failed_lights : List String)
  deriving DecidableEq, Repr

/-- The fan-out loop of `set_all_lights_mode`: one `send_unity_command` per
light id in listed order, appending the id to successful_lights when the call
returns True and to failed_lights otherwise.  Returns the filesystem, the
trace of publish calls issued, and the two accounting lists. -/
def bulkModeLoop (w : String → String → WriteOutcome) (ts : Int) (mode : String) :
    Fs → List String → Fs × List PubCall × List String × List String
  | fs, [] => (fs, [], [], [])
  | fs, light_id :: rest =>
    let r := send_unity_command fs (w light_id ("set_mode")) light_id ("set_mode")
      [(("mode"), mode)] ts
    let out := bulkModeLoop w ts mode r.1 rest
    (out.1, ⟨light_id, ("set_mode"), [(("mode"), mode)]⟩ :: out.2.1,
     if r.2 then light_id :: out.2.2.1 else out.2.2.1,
     if r.2 then out.2.2.2 else light_id :: out.2.2.2)

/-- Embedding of the `set_all_lights_mode` handler: lowercased mode with
default manual, 400 on an inadmissible mode, 404 when no light ids are found,
otherwise the fan-out loop followed by the 200 response. -/
def set_all_lights_mode (w : String → String → WriteOutcome) (ts : Int) (fs : Fs)
    (system_data : Option Snapshot) (body : List (String × String)) :
    Fs × List PubCall × BulkResult :=
  let mode := lowerStr ((getParam body ("mode")).getD ("manual"))
  if !(modeAllowed.contains mode) then (fs, [], BulkResult.invalidMode)
  else
    let light_ids := get_all_light_ids system_data
    if light_ids.isEmpty then (fs, [], BulkResult.noLights)
    else
      let out := bulkModeLoop w ts mode fs light_ids
      (out.1, out.2.1, BulkResult.ok out.2.2.1 out.2.2.2)

/-- Result of the chaos endpoint, by response class: 404 when no lights are
found, the 200 response carrying the affected lights of one of the three
attack branches, or the 400 unknown-type error. -/
inductive ChaosResult where
  | noLights
  | affectedLights (ids : List String)
  | unknownType
  deriving DecidableEq, Repr

/-- The per-entity compound loop shared by the three `chaos_attack` branches:
for each light id, publish set_mode api_controlled; only if that call returned
True, publish set_status with the chosen color (`choose` stands for
`random.choice` in the random branch and is constant in the all_red and
all_green branches); the id is appended to affected_lights only when both
calls returned True. -/
def chaosLoop (w : String → String → WriteOutcome) (choose : String → String)
    (ts : Int) : Fs → List String → Fs × List PubCall × List String
  | fs, [] => (fs, [], [])
  | fs, light_id :: rest =>
    let random_status := choose light_id
    let rm := send_unity_command fs (w light_id ("set_mode")) light_id ("set_mode")
      [(("mode"), ("api_controlled"))] ts
    if rm.2 then
      let rs := send_unity_command rm.1 (w light_id ("set_status")) light_id
        ("set_status") [(("status"), random_status)] ts
      let out := chaosLoop w choose ts rs.1 rest
      (out.1,
       ⟨light_id, ("set_mode"), [(("mode"), ("api_controlled"))]⟩ ::
         ⟨light_id, ("set_status"), [(("status"), random_status)]⟩ :: out.2.1,
       if rs.2 then light_id :: out.2.2 else out.2.2)
    else
      let out := chaosLoop w choose ts rm.1 rest
      (out.1,
       ⟨light_id, ("set_mode"), [(("mode"), ("api_controlled"))]⟩ :: out.2.1,
       out.2.2)

/-- Embedding of the `chaos_attack` handler: attack type with default
random_lights, 404 when no light ids are found (checked before the type
dispatch), then one of the three compound branches, or 400 on an unknown
type.  The duration field is only echoed back and is not modelled. -/
def chaos_attack (w : String → String → WriteOutcome) (choose : String → String)
    (ts : Int) (fs : Fs) (system_data : Option Snapshot)
    (body : List (String × String)) : Fs × List PubCall × ChaosResult :=
  let attack_type := (getParam body ("type")).getD ("random_lights")
  let light_ids := get_all_light_ids system_data
  if light_ids.isEmpty then (fs, [], ChaosResult.noLights)
  else if attack_type == ("random_lights") then
    let out := chaosLoop w choose ts fs light_ids
    (out.1, out.2.1, ChaosResult.affectedLights out.2.2)
  else if attack_type == ("all_red") then
    let out := chaosLoop w (fun _ => ("red")) ts fs light_ids
    (out.1, out.2.1, ChaosResult.affectedLights out.2.2)
  else if attack_type == ("all_green") then
    let out := chaosLoop w (fun _ => ("green")) ts fs light_ids
    (out.1, out.2.1, ChaosResult.affectedLights out.2.2)
  else (fs, [], ChaosResult.unknownType)

/-- Result of a single-light handler, by response class: the 400
invalid-value error, the 200 success response, or the 500 response when
`send_unity_command` returned False. -/
inductive HandlerResult where
  | badRequest
  | okResponse
  | serverError
  deriving DecidableEq, Repr

/-- Embedding of the `set_traffic_light` handler: lowercased status with
default green, 400 on an inadmissible status (no publish attempted),
otherwise one publish of set_status and a 200 or 500 response according to
its boolean result. -/
def set_traffic_light (w : String → String → WriteOutcome) (ts : Int) (fs : Fs)
    (light_id : String) (body : List (String × String)) :
    Fs × List PubCall × HandlerResult :=
  let new_status := lowerStr ((getParam body ("status")).getD ("green"))
  if !(statusAllowed.contains new_status) then (fs, [], HandlerResult.badRequest)
  else
    let r := send_unity_command fs (w light_id ("set_status")) light_id
      ("set_status") [(("status"), new_status)] ts
    (r.1, [⟨light_id, ("set_status"), [(("status"), new_status)]⟩],
     if r.2 then HandlerResult.okResponse else HandlerResult.serverError)

/-- Embedding of the `set_traffic_light_mode` handler: lowercased mode with
default automatic, 400 on an inadmissible mode (no publish attempted),
otherwise one publish of set_mode and a 200 or 500 response according to its
boolean result. -/
def set_traffic_light_mode (w : String → String → WriteOutcome) (ts : Int)
    (fs : Fs) (light_id : String) (body : List (String × String)) :
    Fs × List PubCall × HandlerResult :=
  let mode := lowerStr ((getParam body ("mode")).getD ("automatic"))
  if !(modeAllowed.contains mode) then (fs, [], HandlerResult.badRequest)
  else
    let r := send_unity_command fs (w light_id ("set_mode")) light_id ("set_mode")
      [(("mode"), mode)] ts
    (r.1, [⟨light_id, ("set_mode"), [(("mode"), mode)]⟩],
     if r.2 then HandlerResult.okResponse else HandlerResult.serverError)

/-- Outcome of the pgrep liveness probe as `subprocess.run` surfaces it to
the handler: the probe completed and produced this stdout (a nonzero exit
code without an exception still lands here, with empty stdout), or the call
raised and the exception propagates to the handler's except clause. -/
inductive ProbeOutcome where
  | completed (stdout : String)
  | probeError (msg : String)
  deriving DecidableEq, Repr

/-- Response of the status endpoint, by response class: the 200 status report
(its status string, the traffic_system_connected flag and total_lights), or
the 500 error response built by the except clause. -/
inductive StatusResponse where
  | report (status : String) (connected : Bool) (total_lights : Nat)
  | errorResponse (msg : String)
  deriving DecidableEq, Repr

/-- Whether a response is a status report rather than an error response. -/
def StatusResponse.isReport : StatusResponse → Bool
  | StatusResponse.report _ _ _ => true
  | StatusResponse.errorResponse _ => false

/-- The totalLights figure the report carries: the snapshot field, or 0 when
the snapshot is absent. -/
def snapTotal : Option Snapshot → Nat
  | some s => s.totalLights
  | none => 0

/-- Embedding of the `get_status` handler: run the pgrep probe; if it raises,
the except clause returns the 500 error response; otherwise report running
when the stripped stdout is nonempty and stopped otherwise, together with the
snapshot-derived fields. -/
def get_status (probe : ProbeOutcome) (system_data : Option Snapshot) :
    StatusResponse :=
  match probe with
  | ProbeOutcome.probeError m => StatusResponse.errorResponse m
  | ProbeOutcome.completed out =>
    let is_running := 0 < (stripStr out).length
    StatusResponse.report (if is_running then ("running") else ("stopped"))
      system_data.isSome (snapTotal system_data)

/-- Snapshot with the three lights A, B, C, used to instantiate the fan-out
accounting theorem. -/
def snapABC : Snapshot := ⟨some [⟨("A")⟩, ⟨("B")⟩, ⟨("C")⟩], 3, true⟩

/-- Publish stub whose I/O fails deterministically for target B only. -/
def failOnB : String → String → WriteOutcome :=
  fun light_id _ =>
    if light_id == ("B") then WriteOutcome.ioError 1 ("disk full")
    else WriteOutcome.ok

/-- Publish stub whose I/O always completes. -/
def alwaysOk : String → String → WriteOutcome := fun _ _ => WriteOutcome.ok

/-- Constant stand-in for `random.choice`. -/
def chooseRed : String → String := fun _ => ("red")

/-- Parse stub that always fails, standing for `json.load` raising on
invalid content. -/
def parseFail : String → Option Snapshot := fun _ => none

/-- Parse stub that always yields the empty snapshot. -/
def parseEmptySnap : String → Option Snapshot := fun _ => some ⟨none, 0, false⟩

/-- Field lookup in a command record, first binding wins (Python dict keys
are unique, so this is plain dict indexing). -/
def lookupField : CommandRecord → String → Option JVal
  | [], _ => none
  | f :: rest, k => if f.1 == k then some f.2 else lookupField rest k

/-! Basic lemmas about the mailbox writer. -/

theorem send_unity_command_snd (fs : Fs) (w : WriteOutcome) (light_id action : String)
    (kwargs : List (String × String)) (ts : Int) :
    (send_unity_command fs w light_id action kwargs ts).2 = w.isOk := by
  cases w <;> rfl

theorem lookupFs_insertFile_self (fs : Fs) (p c : String) :
    lookupFs (insertFile fs p c) p = some c := by
  induction fs with
  | nil => simp [insertFile, lookupFs]
  | cons f rest ih =>
    cases h : (f.1 == p) with
    | true => simp [insertFile, lookupFs, h]
    | false => simp [insertFile, lookupFs, h, ih]

theorem empty_append_str (s : String) : ("") ++ s = s := rfl

theorem lookupFs_publish (fs : Fs) (light_id action : String)
    (kwargs : List (String × String)) (ts : Int) :
    lookupFs ((send_unity_command fs WriteOutcome.ok light_id action kwargs ts).1)
      (commandFilePath light_id)
      = some (jsonEncode (buildCommand action ts kwargs)) := by
  simp [send_unity_command, sendCommandOps, applyOps, applyOp, List.foldl,
    lookupFs_insertFile_self, empty_append_str]

theorem jsonEncode_ne_empty (r : CommandRecord) : jsonEncode r ≠ ("") := by
  intro h
  have h2 := congrArg String.data h
  simp [jsonEncode, jsonData] at h2

/-- C5: for every target, action, payload, filesystem state and clock value,
a publish whose underlying I/O completes returns true, and a publish whose
underlying I/O raises returns false — uniformly over the exception message
and over the point at which the failure strikes (directory missing,
permission denied, disk full all land in the same except clause); the
embedding is a total function, so no exception escapes to the caller.  The
boolean is the only uniform signal: a failure at the open leaves the mailbox
unchanged, while a disk-full failure striking in `json.dump` after the
truncating open has already truncated the command file to empty content. -/
theorem publish_io_failure_false (fs : Fs) (light_id action : String)
    (kwargs : List (String × String)) (ts : Int) (opsDone : Nat) (msg : String) :
    (send_unity_command fs WriteOutcome.ok light_id action kwargs ts).2 = true ∧
    (send_unity_command fs (WriteOutcome.ioError opsDone msg) light_id action
        kwargs ts).2 = false ∧
    (send_unity_command fs (WriteOutcome.ioError 0 msg) light_id action
        kwargs ts).1 = fs ∧
    lookupFs (send_unity_command fs (WriteOutcome.ioError 1 msg) light_id action
        kwargs ts).1 (commandFilePath light_id) = some ("") := by
  refine ⟨rfl, rfl, rfl, ?_⟩
  simp [send_unity_command, sendCommandOps, applyOps, applyOp, List.foldl,
    List.take, lookupFs_insertFile_self]

/-- C1 counterexample: two publish calls for target A in the same millisecond
(clock value 5) do not produce distinct mailbox file names — after both
complete, the mailbox holds exactly one file, at the path derived from the
target alone, and its content is the second command; the first command's
content has been overwritten and is gone. -/
theorem publish_collision_counterexample :
    (send_unity_command
        ((send_unity_command [] WriteOutcome.ok ("A") ("set_status")
          [(("status"), ("red"))] 5).1)
        WriteOutcome.ok ("A") ("set_status") [(("status"), ("green"))] 5).1
      = [(commandFilePath ("A"),
          jsonEncode (buildCommand ("set_status") 5 [(("status"), ("green"))]))] ∧
    jsonEncode (buildCommand ("set_status") 5 [(("status"), ("red"))])
      ≠ jsonEncode (buildCommand ("set_status") 5 [(("status"), ("green"))]) :=
  ⟨by decide, by decide⟩

/-- C1 amended: every publish for a given target uses the same mailbox file
name, derived from the target alone — the timestamp, action and payload do
not enter it — and a later publish for that target overwrites the earlier
file, so after two successful publishes the file at that name holds the
second command's content. -/
theorem publish_same_name_overwrite (fs : Fs) (light_id a1 a2 : String)
    (k1 k2 : List (String × String)) (t1 t2 : Int) :
    (sendCommandOps light_id a1 k1 t1).map FsOp.mainPath
        = (sendCommandOps light_id a2 k2 t2).map FsOp.mainPath ∧
    lookupFs
        ((send_unity_command
            ((send_unity_command fs WriteOutcome.ok light_id a1 k1 t1).1)
            WriteOutcome.ok light_id a2 k2 t2).1)
        (commandFilePath light_id)
      = some (jsonEncode (buildCommand a2 t2 k2)) :=
  ⟨rfl, lookupFs_publish _ _ _ _ _⟩

/-- C3 counterexample: the concrete publish of set_mode manual to L1 performs
no rename at all; its first operation is a truncating open of the final
mailbox path, and after that operation (before the JSON is written) the file
is already visible in the mailbox with empty content, which differs from the
complete encoded command — so a concurrent reader can observe a truncated
command file. -/
theorem publish_no_temp_no_rename_counterexample :
    sendCommandOps ("L1") ("set_mode") [(("mode"), ("manual"))] 7
      = [FsOp.openTrunc (commandFilePath ("L1")),
         FsOp.writeChunk (commandFilePath ("L1"))
           (jsonEncode (buildCommand ("set_mode") 7 [(("mode"), ("manual"))]))] ∧
    ((sendCommandOps ("L1") ("set_mode") [(("mode"), ("manual"))] 7).any
        FsOp.isRename) = false ∧
    lookupFs (applyOps []
        ((sendCommandOps ("L1") ("set_mode") [(("mode"), ("manual"))] 7).take 1))
      (commandFilePath ("L1")) = some ("") ∧
    some ("")
      ≠ some (jsonEncode (buildCommand ("set_mode") 7 [(("mode"), ("manual"))])) :=
  ⟨by decide, by decide, by decide, by decide⟩

/-- C3 amended: every publish opens the final mailbox path directly and
writes the JSON into it in place — its operation sequence contains no rename
and touches only the command file path — so after the open but before the
write completes, a reader of the mailbox observes the file with empty
(truncated) content, which differs from the complete encoded command that is
only present after the final operation. -/
theorem publish_direct_write_visible (fs : Fs) (light_id action : String)
    (kwargs : List (String × String)) (ts : Int) :
    ((sendCommandOps light_id action kwargs ts).any FsOp.isRename) = false ∧
    (sendCommandOps light_id action kwargs ts).map FsOp.mainPath
      = [commandFilePath light_id, commandFilePath light_id] ∧
    lookupFs (applyOps fs ((sendCommandOps light_id action kwargs ts).take 1))
      (commandFilePath light_id) = some ("") ∧
    lookupFs (applyOps fs (sendCommandOps light_id action kwargs ts))
      (commandFilePath light_id)
      = some (jsonEncode (buildCommand action ts kwargs)) ∧
    jsonEncode (buildCommand action ts kwargs) ≠ ("") := by
  refine ⟨rfl, rfl, ?_, ?_, jsonEncode_ne_empty _⟩
  · simp [sendCommandOps, applyOps, applyOp, List.foldl, lookupFs_insertFile_self]
  · exact lookupFs_publish fs light_id action kwargs ts

/-! Characterization of the fan-out loops. -/

theorem bulkModeLoop_spec (w : String → String → WriteOutcome) (ts : Int)
    (mode : String) :
    ∀ (ids : List String) (fs : Fs),
      (bulkModeLoop w ts mode fs ids).2
        = (ids.map (fun light_id =>
              PubCall.mk light_id ("set_mode") [(("mode"), mode)]),
           ids.filter (fun light_id => (w light_id ("set_mode")).isOk),
           ids.filter (fun light_id => !(w light_id ("set_mode")).isOk)) := by
  intro ids
  induction ids with
  | nil => intro fs; rfl
  | cons light_id rest ih =>
    intro fs
    simp only [bulkModeLoop, send_unity_command_snd, List.map_cons, List.filter_cons]
    cases h : (w light_id ("set_mode")).isOk <;> simp [h, ih]

/-- C2: for every per-call I/O outcome assignment, clock value, filesystem,
snapshot and request body, when the requested mode is admissible and the
snapshot yields a nonempty id list, the bulk handler issues exactly one
set_mode publish per light id, in the snapshot's listed order, all with the
same payload, and returns the 200-class response that partitions the ids into
successful_lights and failed_lights according to each publish's boolean
result — also under partial failure; the embedding is total, so the loop
raises nothing. -/
theorem bulk_mode_fanout_accounting (w : String → String → WriteOutcome)
    (ts : Int) (fs : Fs) (system_data : Option Snapshot)
    (body : List (String × String))
    (hmode : lowerStr ((getParam body ("mode")).getD ("manual")) ∈ modeAllowed)
    (hids : get_all_light_ids system_data ≠ []) :
    (set_all_lights_mode w ts fs system_data body).2.1
      = (get_all_light_ids system_data).map
          (fun light_id => PubCall.mk light_id ("set_mode")
            [(("mode"), lowerStr ((getParam body ("mode")).getD ("manual")))]) ∧
    (set_all_lights_mode w ts fs system_data body).2.2
      = BulkResult.ok
          ((get_all_light_ids system_data).filter
            (fun light_id => (w light_id ("set_mode")).isOk))
          ((get_all_light_ids system_data).filter
            (fun light_id => !(w light_id ("set_mode")).isOk)) := by
  have h := bulkModeLoop_spec w ts
    (lowerStr ((getParam body ("mode")).getD ("manual")))
    (get_all_light_ids system_data) fs
  constructor <;> simp [set_all_lights_mode, hmode, hids, h]

theorem bulk_mode_fanout_accounting_witness :
    lowerStr ((getParam [(("mode"), ("manual"))] ("mode")).getD ("manual"))
      ∈ modeAllowed ∧
    get_all_light_ids (some snapABC) ≠ [] ∧
    (set_all_lights_mode failOnB 0 [] (some snapABC)
        [(("mode"), ("manual"))]).2.2
      = BulkResult.ok [("A"), ("C")] [("B")] := by
  refine ⟨by decide, by decide, ?_⟩
  have h := bulk_mode_fanout_accounting failOnB 0 [] (some snapABC)
    [(("mode"), ("manual"))] (by decide) (by decide)
  exact h.2.trans (by decide)

/-- C6: in the compound per-entity loop of `chaos_attack`, every target gets
its two commands issued in write order mode-then-status; when the mode
publish fails for a target, the status publish for that target is skipped
(absent from the call trace); and a target lands in affected_lights exactly
when both its publishes returned true. -/
theorem chaos_mode_then_status_contingent (w : String → String → WriteOutcome)
    (choose : String → String) (ts : Int) :
    ∀ (ids : List String) (fs : Fs),
      (chaosLoop w choose ts fs ids).2.1
        = (ids.map (fun light_id =>
            if (w light_id ("set_mode")).isOk then
              [PubCall.mk light_id ("set_mode") [(("mode"), ("api_controlled"))],
               PubCall.mk light_id ("set_status")
                 [(("status"), choose light_id)]]
            else
              [PubCall.mk light_id ("set_mode")
                [(("mode"), ("api_controlled"))]])).flatten ∧
      (chaosLoop w choose ts fs ids).2.2
        = ids.filter (fun light_id =>
            (w light_id ("set_mode")).isOk && (w light_id ("set_status")).isOk) := by
  intro ids
  induction ids with
  | nil => intro fs; exact ⟨rfl, rfl⟩
  | cons light_id rest ih =>
    intro fs
    simp only [chaosLoop, send_unity_command_snd, List.map_cons, List.filter_cons,
      List.flatten]
    cases hm : (w light_id ("set_mode")).isOk
    · simp [hm, ih]
    · cases hs : (w light_id ("set_status")).isOk <;> simp [hm, hs, ih]

/-- C8: for every broadcast request made while the snapshot yields no light
ids (snapshot absent, without a lights key, or with an empty list), the bulk
mode handler (given an admissible mode) and the chaos handler both issue no
publish call, leave the mailbox untouched, and return the 404 response
reporting that no traffic lights were found. -/
theorem bulk_empty_snapshot_no_publishes (w : String → String → WriteOutcome)
    (choose : String → String) (ts : Int) (fs : Fs)
    (system_data : Option Snapshot) (body : List (String × String))
    (hids : get_all_light_ids system_data = []) :
    (lowerStr ((getParam body ("mode")).getD ("manual")) ∈ modeAllowed →
      set_all_lights_mode w ts fs system_data body
        = (fs, [], BulkResult.noLights)) ∧
    chaos_attack w choose ts fs system_data body
      = (fs, [], ChaosResult.noLights) := by
  constructor
  · intro hmode
    simp [set_all_lights_mode, hmode, hids]
  · simp [chaos_attack, hids]

theorem bulk_empty_snapshot_no_publishes_witness :
    get_all_light_ids none = [] ∧
    set_all_lights_mode alwaysOk 0 [] none [(("mode"), ("manual"))]
      = ([], [], BulkResult.noLights) ∧
    chaos_attack alwaysOk chooseRed 0 [] none [(("mode"), ("manual"))]
      = ([], [], ChaosResult.noLights) := by
  have h := bulk_empty_snapshot_no_publishes alwaysOk chooseRed 0 [] none
    [(("mode"), ("manual"))] rfl
  exact ⟨rfl, h.1 (by decide), h.2⟩

/-- C4: the snapshot reader returns absent (None) when the status file does
not exist, returns the same absent result when the file exists but its
content fails to parse as JSON, and returns the parsed snapshot otherwise;
the embedding is total, so nothing escapes the reader's boundary. -/
theorem snapshot_absence_tolerance (parse : String → Option Snapshot)
    (content : String) (s : Snapshot) :
    get_traffic_system_status parse none = none ∧
    (parse content = none →
      get_traffic_system_status parse (some content) = none) ∧
    (parse content = some s →
      get_traffic_system_status parse (some content) = some s) := by
  refine ⟨rfl, ?_, ?_⟩ <;> intro h <;> simp [get_traffic_system_status, h]

theorem snapshot_absence_tolerance_witness :
    get_traffic_system_status parseFail none = none ∧
    get_traffic_system_status parseFail (some ("not json")) = none ∧
    get_traffic_system_status parseEmptySnap (some ("ok"))
      = some ⟨none, 0, false⟩ :=
  ⟨(snapshot_absence_tolerance parseFail ("x") ⟨none, 0, false⟩).1,
   (snapshot_absence_tolerance parseFail ("not json") ⟨none, 0, false⟩).2.1 rfl,
   (snapshot_absence_tolerance parseEmptySnap ("ok") ⟨none, 0, false⟩).2.2 rfl⟩

/-- C9 counterexample: when the pgrep probe raises (for example because the
pgrep binary is missing), the status endpoint does not fold the failure into
a status report as an unknown or not-running state — it returns the 500
error response carrying the exception message. -/
theorem status_probe_error_counterexample :
    get_status (ProbeOutcome.probeError ("pgrep failed")) none
      = StatusResponse.errorResponse ("pgrep failed") ∧
    (get_status (ProbeOutcome.probeError ("pgrep failed")) none).isReport
      = false :=
  ⟨rfl, rfl⟩

/-- C9 amended: a probe error propagates to the handler's except clause,
which returns the 500 error response carrying the exception message rather
than any status report; when the probe completes, the handler reports status
running exactly when the stripped stdout is nonempty and stopped otherwise
(there is no unknown state), alongside the snapshot-derived connection flag
and light count.  No timeout is applied to the probe in the source. -/
theorem status_probe_error_propagates (m out : String)
    (system_data : Option Snapshot) :
    get_status (ProbeOutcome.probeError m) system_data
      = StatusResponse.errorResponse m ∧
    (get_status (ProbeOutcome.probeError m) system_data).isReport = false ∧
    (0 < (stripStr out).length →
      get_status (ProbeOutcome.completed out) system_data
        = StatusResponse.report ("running") system_data.isSome
            (snapTotal system_data)) ∧
    ((stripStr out).length = 0 →
      get_status (ProbeOutcome.completed out) system_data
        = StatusResponse.report ("stopped") system_data.isSome
            (snapTotal system_data)) := by
  refine ⟨rfl, rfl, ?_, ?_⟩ <;> intro h <;> simp [get_status, h]

theorem status_probe_error_propagates_witness :
    get_status (ProbeOutcome.probeError ("spawn error")) none
      = StatusResponse.errorResponse ("spawn error") ∧
    get_status (ProbeOutcome.completed ("  \n")) none
      = StatusResponse.report ("stopped") false 0 := by
  have h := status_probe_error_propagates ("spawn error") ("  \n") none
  exact ⟨h.1, h.2.2.2 (by decide)⟩

/-- C10: for every single-light set-status or set-mode request whose value
lowercases to something outside the admissible set, the handler returns the
400 invalid-value response without issuing any publish call and with the
mailbox unchanged; a request that omits the field is not rejected — it
publishes the default value (status green, mode automatic) and returns a
non-400 response. -/
theorem set_handlers_invalid_value_rejected (w : String → String → WriteOutcome)
    (ts : Int) (fs : Fs) (light_id : String) (body : List (String × String)) :
    (∀ v, getParam body ("status") = some v →
      lowerStr v ∉ statusAllowed →
      set_traffic_light w ts fs light_id body
        = (fs, [], HandlerResult.badRequest)) ∧
    (getParam body ("status") = none →
      (set_traffic_light w ts fs light_id body).2.1
          = [PubCall.mk light_id ("set_status") [(("status"), ("green"))]] ∧
      (set_traffic_light w ts fs light_id body).2.2
          ≠ HandlerResult.badRequest) ∧
    (∀ v, getParam body ("mode") = some v →
      lowerStr v ∉ modeAllowed →
      set_traffic_light_mode w ts fs light_id body
        = (fs, [], HandlerResult.badRequest)) ∧
    (getParam body ("mode") = none →
      (set_traffic_light_mode w ts fs light_id body).2.1
          = [PubCall.mk light_id ("set_mode") [(("mode"), ("automatic"))]] ∧
      (set_traffic_light_mode w ts fs light_id body).2.2
          ≠ HandlerResult.badRequest) := by
  refine ⟨?_, ?_, ?_, ?_⟩
  · intro v hv hbad
    simp [set_traffic_light, hv, hbad]
  · intro hnone
    have hg : lowerStr (("green")) = ("green") := by decide
    have hmem : ("green") ∈ statusAllowed := by decide
    constructor
    · simp [set_traffic_light, hnone, hg, hmem]
    · simp only [set_traffic_light, hnone, Option.getD_none, send_unity_command_snd]
      cases hw : (w light_id ("set_status")).isOk <;> simp [hw, hg, hmem]
  · intro v hv hbad
    simp [set_traffic_light_mode, hv, hbad]
  · intro hnone
    have ha : lowerStr (("automatic")) = ("automatic") := by decide
    have hmem : ("automatic") ∈ modeAllowed := by decide
    constructor
    · simp [set_traffic_light_mode, hnone, ha, hmem]
    · simp only [set_traffic_light_mode, hnone, Option.getD_none, send_unity_command_snd]
      cases hw : (w light_id ("set_mode")).isOk <;> simp [hw, ha, hmem]

theorem set_handlers_invalid_value_rejected_witness :
    getParam [(("status"), ("BLUE"))] ("status") = some ("BLUE") ∧
    lowerStr ("BLUE") ∉ statusAllowed ∧
    set_traffic_light alwaysOk 0 [] ("L1") [(("status"), ("BLUE"))]
      = ([], [], HandlerResult.badRequest) ∧
    (set_traffic_light_mode alwaysOk 0 [] ("L1") []).2.1
      = [PubCall.mk ("L1") ("set_mode") [(("mode"), ("automatic"))]] := by
  have h := set_handlers_invalid_value_rejected alwaysOk 0 [] ("L1")
    [(("status"), ("BLUE"))]
  have h2 := set_handlers_invalid_value_rejected alwaysOk 0 [] ("L1") []
  exact ⟨rfl, by decide, h.1 (("BLUE")) rfl (by decide), (h2.2.2.2 rfl).1⟩

theorem contains_eq_false_of_not_mem (l : List String) (a : String)
    (h : a ∉ l) : l.contains a = false := by
  induction l with
  | nil => rfl
  | cons x rest ih =>
    have h1 : a ≠ x := fun he => h (he ▸ List.mem_cons_self x rest)
    have h2 : a ∉ rest := fun hm => h (List.mem_cons_of_mem x hm)
    simp [List.contains_cons, h1, h2]

theorem dictInsert_fresh (d : CommandRecord) (k : String) (v : JVal)
    (h : k ∉ d.map Prod.fst) :
    dictInsert d k v = d ++ [(k, v)] := by
  unfold dictInsert
  rw [contains_eq_false_of_not_mem _ _ h]
  simp

theorem foldl_dictInsert_fresh :
    ∀ (kwargs : List (String × String)) (acc : CommandRecord),
      (∀ p ∈ kwargs, p.1 ∉ acc.map Prod.fst) →
      (kwargs.map Prod.fst).Nodup →
      kwargs.foldl (fun d p => dictInsert d p.1 (JVal.str p.2)) acc
        = acc ++ kwargs.map (fun p => (p.1, JVal.str p.2)) := by
  intro kwargs
  induction kwargs with
  | nil => intro acc _ _; simp
  | cons q rest ih =>
    intro acc hfresh hnd
    simp only [List.map_cons, List.nodup_cons] at hnd
    have h1 : q.1 ∉ acc.map Prod.fst := hfresh q (List.mem_cons_self q rest)
    have hrest : ∀ p ∈ rest, p.1 ∉ (acc ++ [(q.1, JVal.str q.2)]).map Prod.fst := by
      intro p hp
      have hpk : p.1 ∈ rest.map Prod.fst := List.mem_map_of_mem Prod.fst hp
      have hne : p.1 ≠ q.1 := fun he => hnd.1 (he ▸ hpk)
      have hpa : p.1 ∉ acc.map Prod.fst := hfresh p (List.mem_cons_of_mem q hp)
      simp [hne, hpa]
    rw [List.foldl_cons, dictInsert_fresh acc q.1 _ h1, ih _ hrest hnd.2]
    simp

theorem buildCommand_eq (action : String) (ts : Int)
    (kwargs : List (String × String))
    (ha : ("action") ∉ kwargs.map Prod.fst)
    (ht : ("timestamp") ∉ kwargs.map Prod.fst)
    (hnd : (kwargs.map Prod.fst).Nodup) :
    buildCommand action ts kwargs
      = (("action"), JVal.str action) :: (("timestamp"), JVal.num ts)
          :: kwargs.map (fun p => (p.1, JVal.str p.2)) := by
  have hf : ∀ p ∈ kwargs,
      p.1 ∉ ([(("action"), JVal.str action),
        (("timestamp"), JVal.num ts)] : CommandRecord).map Prod.fst := by
    intro p hp
    have hpa : p.1 ≠ ("action") :=
      fun he => ha (he ▸ List.mem_map_of_mem Prod.fst hp)
    have hpt : p.1 ≠ ("timestamp") :=
      fun he => ht (he ▸ List.mem_map_of_mem Prod.fst hp)
    simp [hpa, hpt]
  unfold buildCommand
  rw [foldl_dictInsert_fresh kwargs _ hf hnd]
  rfl

theorem lookupField_map_self :
    ∀ (kwargs : List (String × String)) (p : String × String),
      (kwargs.map Prod.fst).Nodup → p ∈ kwargs →
      lookupField (kwargs.map (fun q => (q.1, JVal.str q.2))) p.1
        = some (JVal.str p.2) := by
  intro kwargs
  induction kwargs with
  | nil => intro p _ hp; simp at hp
  | cons q rest ih =>
    intro p hnd hp
    simp only [List.map_cons, List.nodup_cons] at hnd
    rcases List.mem_cons.mp hp with he | hm
    · subst he
      simp [lookupField]
    · have hne : q.1 ≠ p.1 :=
        fun he2 => hnd.1 (he2 ▸ List.mem_map_of_mem Prod.fst hm)
      simp [lookupField, hne, ih p hnd.2 hm]

/-- C7: for every action, payload whose keys are the action-specific fields
(so they do not collide with the envelope keys action and timestamp and are
mutually distinct, as Python keyword arguments always are) and any two clock
values, the encoded record contains the action, the millisecond clock value
under the writer-assigned timestamp key (the spec's issued_at), and every
payload field flattened at top level with no nested envelope; the two records
produced at the two clock values have identical keys in identical order and
become equal once the timestamp field is erased — they differ only in it. -/
theorem encode_flat_timestamp_only_difference (action : String)
    (kwargs : List (String × String)) (t1 t2 : Int)
    (ha : ("action") ∉ kwargs.map Prod.fst)
    (ht : ("timestamp") ∉ kwargs.map Prod.fst)
    (hnd : (kwargs.map Prod.fst).Nodup) :
    lookupField (buildCommand action t1 kwargs) ("action")
        = some (JVal.str action) ∧
    lookupField (buildCommand action t1 kwargs) ("timestamp")
        = some (JVal.num t1) ∧
    (∀ p ∈ kwargs, lookupField (buildCommand action t1 kwargs) p.1
        = some (JVal.str p.2)) ∧
    (buildCommand action t1 kwargs).map Prod.fst
        = (buildCommand action t2 kwargs).map Prod.fst ∧
    (buildCommand action t1 kwargs).filter (fun f => f.1 != ("timestamp"))
        = (buildCommand action t2 kwargs).filter (fun f => f.1 != ("timestamp")) := by
  rw [buildCommand_eq action t1 kwargs ha ht hnd,
    buildCommand_eq action t2 kwargs ha ht hnd]
  refine ⟨by simp [lookupField], by simp [lookupField], ?_, by simp, by simp⟩
  intro p hp
  have hpa : p.1 ≠ ("action") :=
    fun he => ha (he ▸ List.mem_map_of_mem Prod.fst hp)
  have hpt : p.1 ≠ ("timestamp") :=
    fun he => ht (he ▸ List.mem_map_of_mem Prod.fst hp)
  have h1 : ("action") ≠ p.1 := fun he => hpa he.symm
  have h2 : ("timestamp") ≠ p.1 := fun he => hpt he.symm
  simp [lookupField, h1, h2, lookupField_map_self kwargs p hnd hp]

theorem encode_flat_timestamp_only_difference_witness :
    lookupField (buildCommand ("set_mode") 1 [(("mode"), ("manual"))]) ("action")
        = some (JVal.str ("set_mode")) ∧
    lookupField (buildCommand ("set_mode") 1 [(("mode"), ("manual"))]) ("timestamp")
        = some (JVal.num 1) ∧
    lookupField (buildCommand ("set_mode") 1 [(("mode"), ("manual"))]) ("mode")
        = some (JVal.str ("manual")) ∧
    (buildCommand ("set_mode") 1 [(("mode"), ("manual"))]).filter
        (fun f => f.1 != ("timestamp"))
      = (buildCommand ("set_mode") 2 [(("mode"), ("manual"))]).filter
        (fun f => f.1 != ("timestamp")) := by
  have h := encode_flat_timestamp_only_difference ("set_mode")
    [(("mode"), ("manual"))] 1 2 (by decide) (by decide) (by decide)
  exact ⟨h.1, h.2.1, h.2.2.1 ((("mode"), ("manual"))) (by decide), h.2.2.2.2⟩
